import Mathlib

/-!
Verification of the tool-augmented streaming response pipeline of the
`ai-cli` repository: the incremental markdown-safe output buffer
(`createStreamingBuffer` with its `append`/`flush` operations), the per-model
tool resolver (`getToolsForModel` over the static `GEMINI_MODELS` catalog),
and the streaming event demultiplexer (the chunk-processing loop of
`generateText`).

Strings are embedded as `List Char`.  The markdown renderer
(`renderMarkdown`) is a stateless text transform whose visual styling is out
of scope; the buffer's outputs are modelled as the raw text handed to the
renderer, so equalities below are about content and timing, not styling.
-/

/-- The backtick character, written by code point. -/
def backtickChar : Char := '\x60'

/-- Number of non-overlapping occurrences of a triple-backtick fence marker,
scanning left to right, exactly as the JavaScript regex match of three
backticks with the global flag counts them in `append`. -/
def countFences : List Char → Nat
  | '\x60' :: '\x60' :: '\x60' :: rest => countFences rest + 1
  | _ :: rest => countFences rest
  | [] => 0

/-- JavaScript `String.prototype.split` on a newline: the list of segments
between newline characters.  Always returns at least one segment. -/
def splitLines : List Char → List (List Char)
  | [] => [[]]
  | c :: rest =>
    if c = '\n' then [] :: splitLines rest
    else
      match splitLines rest with
      | [] => [[c]]
      | l :: ls => (c :: l) :: ls

/-- JavaScript `Array.prototype.join` with a newline separator. -/
def joinLines : List (List Char) → List Char
  | [] => []
  | [l] => l
  | l :: ls => l ++ '\n' :: joinLines ls

/-- The mutable state captured by `createStreamingBuffer`
(interface `StreamingBufferState` in the source). -/
structure StreamingBufferState where
  buffer : List Char
  isInCodeBlock : Bool
deriving DecidableEq, Repr

/-- The fresh state built by `createStreamingBuffer`: empty buffer, not in a
code block. -/
def createStreamingBuffer : StreamingBufferState :=
  { buffer := [], isInCodeBlock := false }

/-- The `append` operation of the streaming buffer.  Returns the updated
state together with the raw text rendered by this call (`[]` when nothing is
rendered).  Mirrors the source: concatenate, recount fences over the whole
pending buffer, set the in-code-block flag to the parity of that count; if
inside a fence, keep buffering; otherwise split into lines, pop the
trailing incomplete line, and when at least one complete line remains render
the complete lines joined with newlines plus a trailing newline, keeping
only the incomplete line. -/
def StreamingBufferState.append (state : StreamingBufferState) (text : List Char) :
    StreamingBufferState × List Char :=
  let buffer := state.buffer ++ text
  let codeBlockCount := countFences buffer
  let isInCodeBlock := codeBlockCount % 2 == 1
  if isInCodeBlock then
    ({ buffer := buffer, isInCodeBlock := isInCodeBlock }, [])
  else
    let lines := splitLines buffer
    let incompleteLine := lines.getLast?.getD []
    let completeLines := lines.dropLast
    if 0 < completeLines.length then
      ({ buffer := incompleteLine, isInCodeBlock := isInCodeBlock },
        joinLines completeLines ++ ['\n'])
    else
      ({ buffer := buffer, isInCodeBlock := isInCodeBlock }, [])

/-- The `flush` operation: render whatever remains in the pending buffer
(regardless of fence state) and clear it; the in-code-block flag is not
touched. -/
def StreamingBufferState.flush (state : StreamingBufferState) :
    StreamingBufferState × List Char :=
  if state.buffer.isEmpty then (state, [])
  else ({ state with buffer := [] }, state.buffer)

/-- Feed a list of fragments to the buffer one `append` at a time,
collecting the concatenation of all rendered outputs. -/
def runAppends (state : StreamingBufferState) :
    List (List Char) → StreamingBufferState × List Char
  | [] => (state, [])
  | t :: ts =>
    let step := state.append t
    let rest := runAppends step.1 ts
    (rest.1, step.2 ++ rest.2)

/-- All text rendered when the fragments are appended to a fresh buffer and
the buffer is then flushed once. -/
def streamRender (fragments : List (List Char)) : List Char :=
  let run := runAppends createStreamingBuffer fragments
  run.2 ++ run.1.flush.2

/-- The single-shot render: one `append` of the whole text, then `flush`. -/
def singleShotRender (text : List Char) : List Char :=
  streamRender [text]

-- ## Model catalog (model.ts)

/-- Model categories of the catalog. -/
inductive ModelCategory
  | flash
  | pro
  | embedding
  | nativeAudio
deriving DecidableEq, Repr

/-- Per-model modality capabilities; the last two fields are optional in the
source and `none` models their absence. -/
structure ModelCapabilities where
  text : Bool
  images : Bool
  video : Bool
  audio : Bool
  audioOutput : Option Bool
  embedding : Option Bool
deriving DecidableEq, Repr

/-- Names of the provider built-in tools. -/
inductive BuiltinToolName
  | codeExecution
  | googleSearch
deriving DecidableEq, Repr

/-- Tool support flags of a model; `defaultTools` is optional in the source
and `none` models its absence. -/
structure ToolSupport where
  codeExecution : Bool
  googleSearch : Bool
  multiToolSupport : Bool
  defaultTools : Option (List BuiltinToolName)
deriving DecidableEq, Repr

/-- One entry of the model catalog (interface `GeminiModel`). -/
structure GeminiModel where
  id : String
  displayName : String
  category : ModelCategory
  capabilities : ModelCapabilities
  contextWindow : Nat
  maxOutputTokens : Option Nat
  description : String
  toolSupport : ToolSupport
deriving DecidableEq, Repr

def gemini20FlashExp : GeminiModel :=
  { id := "gemini-2.0-flash-exp"
    displayName := "Gemini 2.0 Flash Experimental"
    category := ModelCategory.flash
    capabilities :=
      { text := true, images := true, video := true, audio := true
        audioOutput := none, embedding := none }
    contextWindow := 1048576
    maxOutputTokens := some 8192
    description := "Experimental version with full tool support"
    toolSupport :=
      { codeExecution := true, googleSearch := true, multiToolSupport := true
        defaultTools := none } }

def gemini25FlashPreview : GeminiModel :=
  { id := "gemini-2.5-flash-preview-05-20"
    displayName := "Gemini 2.5 Flash Preview"
    category := ModelCategory.flash
    capabilities :=
      { text := true, images := true, video := true, audio := true
        audioOutput := none, embedding := none }
    contextWindow := 1048576
    maxOutputTokens := some 65536
    description := "Latest Flash model with adaptive thinking and cost efficiency"
    toolSupport :=
      { codeExecution := true, googleSearch := true, multiToolSupport := true
        defaultTools := none } }

def gemini25FlashNativeAudioDialog : GeminiModel :=
  { id := "gemini-2.5-flash-preview-native-audio-dialog"
    displayName := "Gemini 2.5 Flash Native Audio Dialog"
    category := ModelCategory.nativeAudio
    capabilities :=
      { text := true, images := false, video := true, audio := true
        audioOutput := some true, embedding := none }
    contextWindow := 128000
    maxOutputTokens := some 8000
    description := "Specialized for interactive audio conversations with audio generation"
    toolSupport :=
      { codeExecution := false, googleSearch := false, multiToolSupport := false
        defaultTools := none } }

def gemini25ProPreview : GeminiModel :=
  { id := "gemini-2.5-pro-preview-05-06"
    displayName := "Gemini 2.5 Pro Preview"
    category := ModelCategory.pro
    capabilities :=
      { text := true, images := true, video := true, audio := true
        audioOutput := none, embedding := none }
    contextWindow := 1048576
    maxOutputTokens := some 65536
    description := "Advanced reasoning and complex problem solving capabilities"
    toolSupport :=
      { codeExecution := true, googleSearch := true, multiToolSupport := true
        defaultTools := none } }

def gemini20Flash : GeminiModel :=
  { id := "gemini-2.0-flash"
    displayName := "Gemini 2.0 Flash"
    category := ModelCategory.flash
    capabilities :=
      { text := true, images := true, video := true, audio := true
        audioOutput := none, embedding := none }
    contextWindow := 1048576
    maxOutputTokens := some 8192
    description := "Next-gen tool use with native streaming support"
    toolSupport :=
      { codeExecution := true, googleSearch := true, multiToolSupport := false
        defaultTools := some [BuiltinToolName.codeExecution] } }

def gemini15Pro : GeminiModel :=
  { id := "gemini-1.5-pro"
    displayName := "Gemini 1.5 Pro"
    category := ModelCategory.pro
    capabilities :=
      { text := true, images := true, video := true, audio := true
        audioOutput := none, embedding := none }
    contextWindow := 2097152
    maxOutputTokens := some 8192
    description := "Large data processing with 2M token context window"
    toolSupport :=
      { codeExecution := false, googleSearch := false, multiToolSupport := false
        defaultTools := none } }

def gemini15Flash : GeminiModel :=
  { id := "gemini-1.5-flash"
    displayName := "Gemini 1.5 Flash"
    category := ModelCategory.flash
    capabilities :=
      { text := true, images := true, video := true, audio := true
        audioOutput := none, embedding := none }
    contextWindow := 1048576
    maxOutputTokens := some 8192
    description := "Fast and versatile performance across diverse tasks"
    toolSupport :=
      { codeExecution := false, googleSearch := false, multiToolSupport := false
        defaultTools := none } }

def gemini15Flash8b : GeminiModel :=
  { id := "gemini-1.5-flash-8b"
    displayName := "Gemini 1.5 Flash 8B"
    category := ModelCategory.flash
    capabilities :=
      { text := true, images := true, video := true, audio := true
        audioOutput := none, embedding := none }
    contextWindow := 1048576
    maxOutputTokens := some 8192
    description := "Smaller, faster variant ideal for lower intelligence tasks"
    toolSupport :=
      { codeExecution := false, googleSearch := false, multiToolSupport := false
        defaultTools := none } }

def gemini15Pro002 : GeminiModel :=
  { id := "gemini-1.5-pro-002"
    displayName := "Gemini 1.5 Pro 002"
    category := ModelCategory.pro
    capabilities :=
      { text := true, images := true, video := true, audio := true
        audioOutput := none, embedding := none }
    contextWindow := 2097152
    maxOutputTokens := some 8192
    description := "Updated Pro model with improved performance"
    toolSupport :=
      { codeExecution := false, googleSearch := false, multiToolSupport := false
        defaultTools := none } }

def gemini15Flash002 : GeminiModel :=
  { id := "gemini-1.5-flash-002"
    displayName := "Gemini 1.5 Flash 002"
    category := ModelCategory.flash
    capabilities :=
      { text := true, images := true, video := true, audio := true
        audioOutput := none, embedding := none }
    contextWindow := 1048576
    maxOutputTokens := some 8192
    description := "Updated Flash model with enhanced capabilities"
    toolSupport :=
      { codeExecution := false, googleSearch := false, multiToolSupport := false
        defaultTools := none } }

def geminiEmbeddingExp : GeminiModel :=
  { id := "gemini-embedding-exp-03-07"
    displayName := "Gemini Embedding Experimental"
    category := ModelCategory.embedding
    capabilities :=
      { text := true, images := false, video := false, audio := false
        audioOutput := none, embedding := some true }
    contextWindow := 8192
    maxOutputTokens := some 8192
    description := "Multi-lingual embeddings with high retrieval performance"
    toolSupport :=
      { codeExecution := false, googleSearch := false, multiToolSupport := false
        defaultTools := none } }

/-- The static model table `GEMINI_MODELS`, as the ordered association list
of its keys and entries. -/
def GEMINI_MODELS : List (String × GeminiModel) :=
  [("gemini-2.0-flash-exp", gemini20FlashExp),
   ("gemini-2.5-flash-preview-05-20", gemini25FlashPreview),
   ("gemini-2.5-flash-preview-native-audio-dialog", gemini25FlashNativeAudioDialog),
   ("gemini-2.5-pro-preview-05-06", gemini25ProPreview),
   ("gemini-2.0-flash", gemini20Flash),
   ("gemini-1.5-pro", gemini15Pro),
   ("gemini-1.5-flash", gemini15Flash),
   ("gemini-1.5-flash-8b", gemini15Flash8b),
   ("gemini-1.5-pro-002", gemini15Pro002),
   ("gemini-1.5-flash-002", gemini15Flash002),
   ("gemini-embedding-exp-03-07", geminiEmbeddingExp)]

/-- `getModelById`: table lookup, `none` for an identifier that is not a key
of the catalog (the source's callers cast arbitrary strings to `ModelId`, so
the identifier is a string here). -/
def getModelById (id : String) : Option GeminiModel :=
  (GEMINI_MODELS.find? (fun p => p.1 == id)).map (fun p => p.2)

/-- `getDefaultModel`. -/
def getDefaultModel : String := "gemini-2.5-flash-preview-05-20"

-- ## Tool resolver (gemini.ts, getToolsForModel)

/-- An opaque MCP client handle (the external-tool handles passed to
`getToolsForModel`). -/
structure Client where
  handle : Nat
deriving DecidableEq, Repr

/-- One tool declaration submitted with a generation request: either the
single adapter wrapping all MCP clients (`mcpToTool(...mcp, {})`) or a
record of built-in tools, with its keys in insertion order. -/
inductive Tool
  | mcpTool (clients : List Client)
  | builtinTool (tools : List BuiltinToolName)
deriving DecidableEq, Repr

/-- `getToolsForModel`: the pure core of the source function, with the
toolset read from preferences made an explicit argument.  The toolset is a
raw string, as at runtime; the string switch has a fallback default branch.
The spec's preference names map to the source's toolset values as
`external` ~ `custom`, `codeExecutionOnly` ~ `codeExecution` and
`searchOnly` ~ `googleSearch`. -/
def getToolsForModel (modelId : String) (mcp : List Client)
    (selectedToolset : String) : List Tool :=
  match getModelById modelId with
  | none => if mcp.length > 0 then [Tool.mcpTool mcp] else []
  | some model =>
    let toolSupport := model.toolSupport
    if !toolSupport.codeExecution && !toolSupport.googleSearch then
      if mcp.length > 0 then [Tool.mcpTool mcp] else []
    else
      match selectedToolset with
      | "custom" => if mcp.length > 0 then [Tool.mcpTool mcp] else []
      | "builtin" =>
        if toolSupport.multiToolSupport then
          let builtinTools :=
            (if toolSupport.codeExecution then [BuiltinToolName.codeExecution] else []) ++
              (if toolSupport.googleSearch then [BuiltinToolName.googleSearch] else [])
          if builtinTools.length > 0 then [Tool.builtinTool builtinTools] else []
        else
          let defaultTool :=
            match toolSupport.defaultTools.bind List.head? with
            | some t => t
            | none =>
              if toolSupport.codeExecution then BuiltinToolName.codeExecution
              else BuiltinToolName.googleSearch
          [Tool.builtinTool [defaultTool]]
      | "codeExecution" =>
        if toolSupport.codeExecution then [Tool.builtinTool [BuiltinToolName.codeExecution]]
        else []
      | "googleSearch" =>
        if toolSupport.googleSearch then [Tool.builtinTool [BuiltinToolName.googleSearch]]
        else []
      | _ => if mcp.length > 0 then [Tool.mcpTool mcp] else []

/-- Number of built-in tool-group declarations in a resolver output. -/
def countBuiltinDecls (tools : List Tool) : Nat :=
  tools.countP (fun t =>
    match t with
    | Tool.builtinTool _ => true
    | Tool.mcpTool _ => false)

/-- A declaration is well formed for a given registered MCP client list when
it is the single adapter wrapping exactly those clients (and some exist), or
a non-empty built-in tool group. -/
def Tool.wellFormedFor (mcp : List Client) : Tool → Bool
  | Tool.mcpTool clients => clients == mcp && !clients.isEmpty
  | Tool.builtinTool tools => !tools.isEmpty

/-- A resolver output is well formed when it has at most one declaration and
every declaration in it is well formed. -/
def wellFormedTools (mcp : List Client) (tools : List Tool) : Bool :=
  tools.length ≤ 1 && tools.all (Tool.wellFormedFor mcp)

-- ## Streaming event demultiplexer (gemini.ts, generateText stream loop)

/-- An opaque JSON value: the tool parameters and results flow through the
demultiplexer uninterpreted. -/
structure JsonValue where
  raw : Nat
deriving DecidableEq, Repr

/-- The empty JSON object used as the fallback for missing arguments and
responses. -/
def JsonValue.emptyObject : JsonValue := { raw := 0 }

/-- A function-call signal of a provider part; `name` and `args` are
optional in the chunk shape. -/
structure FunctionCall where
  name : Option String
  args : Option JsonValue
deriving DecidableEq, Repr

/-- A function-response signal of a provider part. -/
structure FunctionResponse where
  name : Option String
  response : Option JsonValue
deriving DecidableEq, Repr

/-- One structured part of a provider chunk (the SDK's `Part`; named
`ChunkPart` here since Lean already has a `Part` type): an optional
tool-invocation signal, an optional tool-result signal, and optional plain
text. -/
structure ChunkPart where
  functionCall : Option FunctionCall
  functionResponse : Option FunctionResponse
  text : Option String
deriving DecidableEq, Repr

/-- One raw provider chunk, reduced to the only field the loop reads:
`candidates?.[0]?.content?.parts`, `none` when any link of that optional
chain is missing. -/
structure Chunk where
  parts : Option (List ChunkPart)
deriving DecidableEq, Repr

/-- The three shapes of demultiplexed stream events. -/
inductive StreamEvent
  | text (content : String)
  | toolCall (name : String) (params : JsonValue)
  | toolResult (name : String) (result : JsonValue)
deriving DecidableEq, Repr

/-- Observable actions of the stream loop, in execution order: invoking the
before-call hook, invoking the after-result hook, and yielding an event. -/
inductive StreamAction
  | onToolCall (name : String) (params : JsonValue)
  | onToolResult (name : String) (result : JsonValue)
  | yieldEvent (event : StreamEvent)
deriving DecidableEq, Repr

/-- JavaScript `name || "unknown"` on an optional string: the fallback fires
both for a missing name and for the (falsy) empty string. -/
def orUnknown : Option String → String
  | some n => if n == "" then "unknown" else n
  | none => "unknown"

/-- Processing of one part, with flags recording whether the caller supplied
the two hooks: the function-call branch fires the before-call hook and then
yields a tool-call event; otherwise the function-response branch fires the
after-result hook and then yields a tool-result event; otherwise truthy
(non-empty) text yields a text event; otherwise nothing is produced. -/
def processPart (hasOnToolCall hasOnToolResult : Bool) (part : ChunkPart) :
    List StreamAction :=
  match part.functionCall with
  | some functionCall =>
    let toolName := orUnknown functionCall.name
    let params := functionCall.args.getD JsonValue.emptyObject
    (if hasOnToolCall then [StreamAction.onToolCall toolName params] else []) ++
      [StreamAction.yieldEvent (StreamEvent.toolCall toolName params)]
  | none =>
    match part.functionResponse with
    | some functionResponse =>
      let toolName := orUnknown functionResponse.name
      let result := functionResponse.response.getD JsonValue.emptyObject
      (if hasOnToolResult then [StreamAction.onToolResult toolName result] else []) ++
        [StreamAction.yieldEvent (StreamEvent.toolResult toolName result)]
    | none =>
      match part.text with
      | some t =>
        if t == "" then [] else [StreamAction.yieldEvent (StreamEvent.text t)]
      | none => []

/-- The stream-processing loop of `generateText`: chunks in arrival order,
parts in the order they appear within each chunk; a chunk without parts is
skipped. -/
def generateText (hasOnToolCall hasOnToolResult : Bool) (chunks : List Chunk) :
    List StreamAction :=
  chunks.flatMap (fun chunk =>
    match chunk.parts with
    | some parts => parts.flatMap (processPart hasOnToolCall hasOnToolResult)
    | none => [])

/-- The events yielded by a run, in order, with the hook invocations
projected away. -/
def yieldedEvents (actions : List StreamAction) : List StreamEvent :=
  actions.filterMap (fun a =>
    match a with
    | StreamAction.yieldEvent e => some e
    | StreamAction.onToolCall _ _ => none
    | StreamAction.onToolResult _ _ => none)

/-- Classification of a part by the first matching signal in the priority
order: function call, then function response, then non-empty plain text;
`none` when the part carries no signal (absent or empty text).  This states
the spec's reading of the dispatch; the theorems relate it to
`processPart`. -/
def classifyPart (part : ChunkPart) : Option StreamEvent :=
  match part.functionCall with
  | some fc =>
    some (StreamEvent.toolCall (orUnknown fc.name) (fc.args.getD JsonValue.emptyObject))
  | none =>
    match part.functionResponse with
    | some fr =>
      some (StreamEvent.toolResult (orUnknown fr.name) (fr.response.getD JsonValue.emptyObject))
    | none =>
      match part.text with
      | some t => if t == "" then none else some (StreamEvent.text t)
      | none => none

/-- The action sequence the spec prescribes for one part when both hooks are
supplied: the matching hook invoked immediately before the yield for tool
events, a bare yield for text, nothing for a signal-less part. -/
def specPartActions (part : ChunkPart) : List StreamAction :=
  match classifyPart part with
  | some (StreamEvent.toolCall n a) =>
    [StreamAction.onToolCall n a, StreamAction.yieldEvent (StreamEvent.toolCall n a)]
  | some (StreamEvent.toolResult n r) =>
    [StreamAction.onToolResult n r, StreamAction.yieldEvent (StreamEvent.toolResult n r)]
  | some (StreamEvent.text t) => [StreamAction.yieldEvent (StreamEvent.text t)]
  | none => []

/-- Whether a part carries a truthy text signal. -/
def hasTextSignal (part : ChunkPart) : Bool :=
  match part.text with
  | some t => !(t == "")
  | none => false

/-- How many of the three signals a part carries. -/
def signalCount (part : ChunkPart) : Nat :=
  (if part.functionCall.isSome then 1 else 0) +
    (if part.functionResponse.isSome then 1 else 0) +
    (if hasTextSignal part then 1 else 0)

/-- All parts of a chunk list, in processing order. -/
def allParts (chunks : List Chunk) : List ChunkPart :=
  chunks.flatMap (fun chunk => chunk.parts.getD [])

-- ## Lemmas about the streaming buffer

theorem splitLines_ne_nil (l : List Char) : splitLines l ≠ [] := by
  induction l with
  | nil => simp [splitLines]
  | cons c rest ih =>
    simp only [splitLines]
    split
    · simp
    · split
      · simp
      · simp

theorem joinLines_cons (l : List Char) (ls : List (List Char)) (h : ls ≠ []) :
    joinLines (l :: ls) = l ++ '\n' :: joinLines ls := by
  cases ls with
  | nil => exact absurd rfl h
  | cons a as => rfl

theorem joinLines_splitLines (l : List Char) : joinLines (splitLines l) = l := by
  induction l with
  | nil => rfl
  | cons c rest ih =>
    simp only [splitLines]
    split
    · rename_i hc
      rw [joinLines_cons [] (splitLines rest) (splitLines_ne_nil rest), ih, hc]
      rfl
    · cases hsp : splitLines rest with
      | nil => exact absurd hsp (splitLines_ne_nil rest)
      | cons a as =>
        rw [hsp] at ih
        cases as with
        | nil => simpa [joinLines] using ih
        | cons b bs =>
          rw [joinLines_cons (c :: a) (b :: bs) (by simp),
            joinLines_cons a (b :: bs) (by simp)] at *
          simpa using ih

theorem joinLines_append_last (ls : List (List Char)) (x : List Char) (h : ls ≠ []) :
    joinLines (ls ++ [x]) = joinLines ls ++ '\n' :: x := by
  induction ls with
  | nil => exact absurd rfl h
  | cons a as ih =>
    cases as with
    | nil => rfl
    | cons b bs =>
      rw [List.cons_append, joinLines_cons a ((b :: bs) ++ [x]) (by simp),
        joinLines_cons a (b :: bs) (by simp), ih (by simp)]
      simp

/-- Conservation: each `append` moves text around but loses nothing — the
rendered output followed by the new pending buffer is exactly the old
pending buffer followed by the appended text. -/
theorem append_conserves (state : StreamingBufferState) (text : List Char) :
    (state.append text).2 ++ (state.append text).1.buffer = state.buffer ++ text := by
  unfold StreamingBufferState.append
  simp only []
  split
  · simp
  · split
    · rename_i hlen
      have hne : splitLines (state.buffer ++ text) ≠ [] :=
        splitLines_ne_nil (state.buffer ++ text)
      have hdrop : (splitLines (state.buffer ++ text)).dropLast ≠ [] := by
        intro hnil
        rw [hnil] at hlen
        simp at hlen
      have hsplit :
          (splitLines (state.buffer ++ text)).dropLast ++
              [(splitLines (state.buffer ++ text)).getLast?.getD []] =
            splitLines (state.buffer ++ text) := by
        cases hsp : splitLines (state.buffer ++ text) with
        | nil => exact absurd hsp hne
        | cons a as =>
          rw [List.getLast?_eq_getLast (a :: as) (by simp)]
          simp [List.dropLast_append_getLast]
      calc (joinLines (splitLines (state.buffer ++ text)).dropLast ++ ['\n']) ++
              (splitLines (state.buffer ++ text)).getLast?.getD []
          = joinLines ((splitLines (state.buffer ++ text)).dropLast ++
              [(splitLines (state.buffer ++ text)).getLast?.getD []]) := by
            rw [joinLines_append_last _ _ hdrop]; simp
        _ = joinLines (splitLines (state.buffer ++ text)) := by rw [hsplit]
        _ = state.buffer ++ text := joinLines_splitLines _
    · simp

/-- Conservation over a whole run of appends. -/
theorem runAppends_conserves (fragments : List (List Char))
    (state : StreamingBufferState) :
    (runAppends state fragments).2 ++ (runAppends state fragments).1.buffer =
      state.buffer ++ fragments.flatMap id := by
  induction fragments generalizing state with
  | nil => simp [runAppends]
  | cons t ts ih =>
    simp only [runAppends, List.flatMap_cons, id]
    rw [List.append_assoc, ih (state.append t).1, ← List.append_assoc,
      append_conserves, List.append_assoc]

/-- `flush` renders exactly the pending buffer. -/
theorem flush_output (state : StreamingBufferState) :
    state.flush.2 = state.buffer := by
  unfold StreamingBufferState.flush
  split
  · rename_i h
    simp [List.isEmpty_iff] at h
    simp [h]
  · rfl

/-- Streaming any fragment list through the buffer and flushing emits
exactly the concatenation of the fragments. -/
theorem streamRender_eq_concat (fragments : List (List Char)) :
    streamRender fragments = fragments.flatMap id := by
  show (runAppends createStreamingBuffer fragments).2 ++
      (runAppends createStreamingBuffer fragments).1.flush.2 =
    fragments.flatMap id
  rw [flush_output, runAppends_conserves]
  simp [createStreamingBuffer]

-- ## Claims about the streaming output buffer

/-- C1: for every text whose total number of triple-backtick fence markers is
even, and every way of splitting that text into an ordered list of
fragments, appending the fragments one by one to a fresh streaming buffer
and then flushing once emits, as the concatenation of all rendered outputs,
exactly the single-shot render of the whole text: buffering loses and
corrupts nothing.  (Rendered output is the raw text handed to the
markdown renderer.) -/
theorem streaming_buffer_fence_safety (fragments : List (List Char))
    (hbalanced : countFences (fragments.flatMap id) % 2 = 0) :
    streamRender fragments = singleShotRender (fragments.flatMap id) := by
  rw [streamRender_eq_concat]
  unfold singleShotRender
  rw [streamRender_eq_concat]
  simp

/-- Witness for C1 at a concrete split of a balanced-fence text. -/
theorem streaming_buffer_fence_safety_witness :
    countFences (["Hello ".toList, "```co".toList, "de```\nBye".toList].flatMap id) % 2 = 0 ∧
    streamRender ["Hello ".toList, "```co".toList, "de```\nBye".toList] =
      singleShotRender (["Hello ".toList, "```co".toList, "de```\nBye".toList].flatMap id) :=
  ⟨by decide, streaming_buffer_fence_safety ["Hello ".toList, "```co".toList, "de```\nBye".toList] (by decide)⟩

/-- C3 counterexample: append the fragment consisting of a fence, a newline
and another fence, then append a single letter.  All text ever appended
holds two (an even number of) triple-backtick markers, yet the in-code-block
flag is true — the first append rendered a prefix containing one marker and
the parity is recomputed over the remaining pending buffer only, so the flag
does not equal the parity over all text ever appended. -/
theorem inFencedBlock_parity_counterexample :
    ((createStreamingBuffer.append ("```\n```".toList)).1.append ("x".toList)).1.isInCodeBlock = true ∧
    countFences ("```\n```".toList ++ "x".toList) % 2 = 0 := by
  constructor
  · decide
  · decide

/-- C3 amended: after every `append`, the in-code-block flag equals the
parity of the triple-backtick markers in the buffer over which the append
recomputed it — the previous pending text followed by the newly appended
text — rather than in all text ever appended; the two differ when an
already-rendered prefix contained an odd number of markers. -/
theorem inFencedBlock_tracks_append_parity (state : StreamingBufferState) (text : List Char) :
    (state.append text).1.isInCodeBlock =
      (countFences (state.buffer ++ text) % 2 == 1) := by
  unfold StreamingBufferState.append
  dsimp only
  split <;> (try split) <;> simp_all

/-- C8: on a fresh buffer, appending the text with an unterminated fence
renders nothing and leaves the buffer inside the fence; appending the
closing fence and a trailing line then renders exactly one unit — the full
fenced block through the closing fence's newline — while the trailing line
stays pending and is emitted only by `flush`. -/
theorem streaming_buffer_concrete_scenario :
    (createStreamingBuffer.append ("Hello ```py\nprint(1)".toList)).2 = [] ∧
    (createStreamingBuffer.append ("Hello ```py\nprint(1)".toList)).1.isInCodeBlock = true ∧
    ((createStreamingBuffer.append ("Hello ```py\nprint(1)".toList)).1.append
        ("\n```\nDone".toList)).2 = "Hello ```py\nprint(1)\n```\n".toList ∧
    ((createStreamingBuffer.append ("Hello ```py\nprint(1)".toList)).1.append
        ("\n```\nDone".toList)).1.buffer = "Done".toList ∧
    (((createStreamingBuffer.append ("Hello ```py\nprint(1)".toList)).1.append
        ("\n```\nDone".toList)).1.flush).2 = "Done".toList := by
  refine ⟨by decide, by decide, by decide, by decide, by decide⟩

-- ## Claims about the tool resolver

theorem mcpFallback_wf (mcp : List Client) :
    wellFormedTools mcp (if mcp.length > 0 then [Tool.mcpTool mcp] else []) = true := by
  by_cases hm : mcp = []
  · simp [hm, wellFormedTools]
  · have hl : mcp.length > 0 := List.length_pos.mpr hm
    simp [hl, wellFormedTools, Tool.wellFormedFor, List.isEmpty_iff, hm]

/-- C2 counterexample: `gemini-1.5-flash` supports neither code execution
nor search, yet resolving with the `builtin` preference and one registered
MCP client does not return an empty list — it returns the MCP adapter, the
no-tool-support early return firing before the preference is consulted. -/
theorem builtin_no_support_counterexample :
    getToolsForModel "gemini-1.5-flash" [Client.mk 0] "builtin" =
      [Tool.mcpTool [Client.mk 0]] ∧
    getToolsForModel "gemini-1.5-flash" [Client.mk 0] "builtin" ≠ [] := by
  constructor
  · decide
  · decide

/-- C2 amended: for every catalog model with both built-in capability flags
false, resolving with the `builtin` preference returns the single MCP
adapter wrapping the external tools when any are registered, and the empty
list only when none are. -/
theorem builtin_no_support_returns_mcp (modelId : String) (model : GeminiModel)
    (mcp : List Client)
    (hm : getModelById modelId = some model)
    (hce : model.toolSupport.codeExecution = false)
    (hgs : model.toolSupport.googleSearch = false) :
    getToolsForModel modelId mcp "builtin" =
      if mcp.length > 0 then [Tool.mcpTool mcp] else [] := by
  unfold getToolsForModel
  rw [hm]
  simp [hce, hgs]

/-- Witness for the amended C2 at `gemini-1.5-flash` with one MCP client. -/
theorem builtin_no_support_returns_mcp_witness :
    getModelById "gemini-1.5-flash" = some gemini15Flash ∧
    gemini15Flash.toolSupport.codeExecution = false ∧
    gemini15Flash.toolSupport.googleSearch = false ∧
    getToolsForModel "gemini-1.5-flash" [Client.mk 7] "builtin" =
      (if ([Client.mk 7] : List Client).length > 0 then [Tool.mcpTool [Client.mk 7]] else []) :=
  ⟨by decide, rfl, rfl,
    builtin_no_support_returns_mcp "gemini-1.5-flash" gemini15Flash [Client.mk 7]
      (by decide) rfl rfl⟩

/-- C5: for every catalog model whose `multiToolSupport` flag is false,
resolving with the `builtin` preference and no external tools returns at
most one declaration, and for every external-tool list the output holds at
most one built-in tool group. -/
theorem single_builtin_tool_invariant (modelId : String) (model : GeminiModel)
    (mcp : List Client)
    (hm : getModelById modelId = some model)
    (hmulti : model.toolSupport.multiToolSupport = false) :
    (getToolsForModel modelId [] "builtin").length ≤ 1 ∧
      countBuiltinDecls (getToolsForModel modelId mcp "builtin") ≤ 1 := by
  unfold getToolsForModel
  rw [hm]
  dsimp only
  constructor
  · split
    · simp
    · simp [hmulti, countBuiltinDecls]
  · split
    · by_cases hmc : mcp.length > 0 <;> simp [hmc, countBuiltinDecls]
    · simp [hmulti, countBuiltinDecls]

/-- Witness for C5 at `gemini-2.0-flash` with two MCP clients. -/
theorem single_builtin_tool_invariant_witness :
    getModelById "gemini-2.0-flash" = some gemini20Flash ∧
    gemini20Flash.toolSupport.multiToolSupport = false ∧
    ((getToolsForModel "gemini-2.0-flash" [] "builtin").length ≤ 1 ∧
      countBuiltinDecls
        (getToolsForModel "gemini-2.0-flash" [Client.mk 1, Client.mk 2] "builtin") ≤ 1) :=
  ⟨by decide, rfl,
    single_builtin_tool_invariant "gemini-2.0-flash" gemini20Flash
      [Client.mk 1, Client.mk 2] (by decide) rfl⟩

/-- C6: for every identifier that is not a key of the catalog and every
external-tool list, resolution with the `builtin` preference returns
exactly the same result as resolution with the `external` (source:
`custom`) preference — the single adapter wrapping the external tools, or
the empty list when there are none — and resolution is a total function, so
nothing is raised. -/
theorem unknown_model_degrades_gracefully (modelId : String) (mcp : List Client)
    (hm : getModelById modelId = none) :
    getToolsForModel modelId mcp "builtin" = getToolsForModel modelId mcp "custom" ∧
      getToolsForModel modelId mcp "builtin" =
        (if mcp.length > 0 then [Tool.mcpTool mcp] else []) := by
  unfold getToolsForModel
  rw [hm]
  exact ⟨rfl, rfl⟩

/-- Witness for C6 at an identifier outside the catalog. -/
theorem unknown_model_degrades_gracefully_witness :
    getModelById "not-a-real-model" = none ∧
    (getToolsForModel "not-a-real-model" [Client.mk 5] "builtin" =
        getToolsForModel "not-a-real-model" [Client.mk 5] "custom" ∧
      getToolsForModel "not-a-real-model" [Client.mk 5] "builtin" =
        (if ([Client.mk 5] : List Client).length > 0
          then [Tool.mcpTool [Client.mk 5]] else [])) :=
  ⟨by decide, unknown_model_degrades_gracefully "not-a-real-model" [Client.mk 5] (by decide)⟩

/-- C7: for every model identifier (known or unknown), every external-tool
list and every toolset string (including unrecognized ones, which the
switch's default branch handles), resolution returns a well-formed list —
at most one declaration, each one either the MCP adapter wrapping exactly
the registered clients or a non-empty built-in group — and, being a total
function, never throws. -/
theorem resolveTools_total_wellFormed (modelId : String) (mcp : List Client)
    (toolset : String) :
    wellFormedTools mcp (getToolsForModel modelId mcp toolset) = true := by
  unfold getToolsForModel
  cases h : getModelById modelId with
  | none => exact mcpFallback_wf mcp
  | some model =>
    dsimp only
    split
    · exact mcpFallback_wf mcp
    · split
      · exact mcpFallback_wf mcp
      · split
        · cases hce : model.toolSupport.codeExecution <;>
            cases hgs : model.toolSupport.googleSearch <;>
              simp [hce, hgs, wellFormedTools, Tool.wellFormedFor]
        · simp [wellFormedTools, Tool.wellFormedFor]
      · split <;> simp [wellFormedTools, Tool.wellFormedFor]
      · split <;> simp [wellFormedTools, Tool.wellFormedFor]
      · exact mcpFallback_wf mcp

/-- C9: for `gemini-2.0-flash` (capabilities: code execution and search
both supported, multiple built-in tools not supported, default tools
`[codeExecution]`), the `builtin` preference with no external tools
resolves to exactly one declaration, the code-execution tool. -/
theorem builtin_default_tool_scenario :
    getToolsForModel "gemini-2.0-flash" [] "builtin" =
      [Tool.builtinTool [BuiltinToolName.codeExecution]] := by
  decide

-- ## Claims about the demultiplexer

theorem yieldedEvents_append (a b : List StreamAction) :
    yieldedEvents (a ++ b) = yieldedEvents a ++ yieldedEvents b := by
  simp [yieldedEvents]

theorem yieldedEvents_processPart (hc hr : Bool) (p : ChunkPart) :
    yieldedEvents (processPart hc hr p) = (classifyPart p).toList := by
  rcases p with ⟨fc, fr, tx⟩
  cases fc with
  | some f => cases hc <;> simp [processPart, classifyPart, yieldedEvents]
  | none =>
    cases fr with
    | some f => cases hr <;> simp [processPart, classifyPart, yieldedEvents]
    | none =>
      cases tx with
      | none => simp [processPart, classifyPart, yieldedEvents]
      | some t =>
        by_cases ht : t == "" <;> simp [processPart, classifyPart, yieldedEvents, ht]

theorem processPart_hooks (p : ChunkPart) :
    processPart true true p = specPartActions p := by
  rcases p with ⟨fc, fr, tx⟩
  cases fc with
  | some f => simp [processPart, classifyPart, specPartActions]
  | none =>
    cases fr with
    | some f => simp [processPart, classifyPart, specPartActions]
    | none =>
      cases tx with
      | none => simp [processPart, classifyPart, specPartActions]
      | some t =>
        by_cases ht : t == "" <;> simp [processPart, classifyPart, specPartActions, ht]

theorem generateText_eq_flatMap (hc hr : Bool) (chunks : List Chunk) :
    generateText hc hr chunks = (allParts chunks).flatMap (processPart hc hr) := by
  induction chunks with
  | nil => rfl
  | cons c cs ih =>
    cases hp : c.parts with
    | none => simp [generateText, allParts, hp] at *; exact ih
    | some ps => simp [generateText, allParts, hp] at *; rw [ih]

theorem classifyPart_isSome_of_signal (p : ChunkPart) (h : signalCount p = 1) :
    (classifyPart p).isSome = true := by
  rcases p with ⟨fc, fr, tx⟩
  cases fc with
  | some f => simp [classifyPart]
  | none =>
    cases fr with
    | some f => simp [classifyPart]
    | none =>
      cases tx with
      | none => simp [signalCount, hasTextSignal] at h
      | some t =>
        by_cases ht : t == ""
        · simp [signalCount, hasTextSignal, ht] at h
        · simp [classifyPart, ht]

theorem yields_one_per_part (ps : List ChunkPart)
    (h : ∀ p ∈ ps, signalCount p = 1) :
    (yieldedEvents (ps.flatMap (processPart true true))).length = ps.length := by
  induction ps with
  | nil => rfl
  | cons p rest ih =>
    simp only [List.flatMap_cons, yieldedEvents_append, List.length_append]
    rw [yieldedEvents_processPart]
    have h1 := classifyPart_isSome_of_signal p (h p (by simp))
    have hlen : (classifyPart p).toList.length = 1 := by
      cases hcp : classifyPart p with
      | none => rw [hcp] at h1; simp at h1
      | some e => simp
    rw [hlen, ih (fun q hq => h q (by simp [hq]))]
    simp only [List.length_cons]
    omega

/-- C4: when every part of every chunk carries exactly one signal and both
hooks are supplied, the stream loop's observable behavior is exactly, part
by part in chunk-arrival and within-chunk order: for a tool-call part the
before-call hook with that tool's name and parameters immediately followed
by the tool-call yield, for a tool-result part the after-result hook
immediately followed by the tool-result yield, and for a text part the bare
text yield; in particular exactly one event is yielded per part. -/
theorem demux_order_and_hooks (chunks : List Chunk)
    (hone : ∀ p ∈ allParts chunks, signalCount p = 1) :
    generateText true true chunks = (allParts chunks).flatMap specPartActions ∧
      (yieldedEvents (generateText true true chunks)).length =
        (allParts chunks).length := by
  constructor
  · rw [generateText_eq_flatMap, funext processPart_hooks]
  · rw [generateText_eq_flatMap]
    exact yields_one_per_part (allParts chunks) hone

/-- Witness for C4 on a concrete three-chunk stream: a chunk holding a
tool-call part then a text part, a chunk with no parts, and a chunk holding
a tool-result part. -/
theorem demux_order_and_hooks_witness :
    (∀ p ∈ allParts
        [Chunk.mk (some
            [ChunkPart.mk (some (FunctionCall.mk (some "search") (some (JsonValue.mk 1)))) none none,
             ChunkPart.mk none none (some "hello")]),
         Chunk.mk none,
         Chunk.mk (some
            [ChunkPart.mk none (some (FunctionResponse.mk (some "search") (some (JsonValue.mk 2)))) none])],
      signalCount p = 1) ∧
    (generateText true true
        [Chunk.mk (some
            [ChunkPart.mk (some (FunctionCall.mk (some "search") (some (JsonValue.mk 1)))) none none,
             ChunkPart.mk none none (some "hello")]),
         Chunk.mk none,
         Chunk.mk (some
            [ChunkPart.mk none (some (FunctionResponse.mk (some "search") (some (JsonValue.mk 2)))) none])] =
      (allParts
        [Chunk.mk (some
            [ChunkPart.mk (some (FunctionCall.mk (some "search") (some (JsonValue.mk 1)))) none none,
             ChunkPart.mk none none (some "hello")]),
         Chunk.mk none,
         Chunk.mk (some
            [ChunkPart.mk none (some (FunctionResponse.mk (some "search") (some (JsonValue.mk 2)))) none])]).flatMap
        specPartActions ∧
      (yieldedEvents (generateText true true
        [Chunk.mk (some
            [ChunkPart.mk (some (FunctionCall.mk (some "search") (some (JsonValue.mk 1)))) none none,
             ChunkPart.mk none none (some "hello")]),
         Chunk.mk none,
         Chunk.mk (some
            [ChunkPart.mk none (some (FunctionResponse.mk (some "search") (some (JsonValue.mk 2)))) none])])).length =
        (allParts
        [Chunk.mk (some
            [ChunkPart.mk (some (FunctionCall.mk (some "search") (some (JsonValue.mk 1)))) none none,
             ChunkPart.mk none none (some "hello")]),
         Chunk.mk none,
         Chunk.mk (some
            [ChunkPart.mk none (some (FunctionResponse.mk (some "search") (some (JsonValue.mk 2)))) none])]).length) :=
  ⟨by decide,
    demux_order_and_hooks
      [Chunk.mk (some
          [ChunkPart.mk (some (FunctionCall.mk (some "search") (some (JsonValue.mk 1)))) none none,
           ChunkPart.mk none none (some "hello")]),
       Chunk.mk none,
       Chunk.mk (some
          [ChunkPart.mk none (some (FunctionResponse.mk (some "search") (some (JsonValue.mk 2)))) none])]
      (by decide)⟩

/-- C10: each part yields at most one event, namely the one given by the
first matching signal in the priority order function call, function
response, non-empty text; a part with no function signal and absent or
empty text yields no event at all, whatever hooks are supplied. -/
theorem part_classification_priority (hc hr : Bool) (p : ChunkPart) :
    yieldedEvents (processPart hc hr p) = (classifyPart p).toList ∧
      (yieldedEvents (processPart hc hr p)).length ≤ 1 := by
  refine ⟨yieldedEvents_processPart hc hr p, ?_⟩
  rw [yieldedEvents_processPart]
  cases classifyPart p <;> simp
